import Mathlib

/-
Verification of the two workflow-step programs of this repository:
the Greeter (src/main.go) and the Forwarder (src/test-get-request/main.go).
The Forwarder's interaction with Go's encoding/json is modelled at the level
of character lists: a total JSON scanner mirroring the behaviour of
json.Decoder.Decode into a Go map[string]interface value, and a renderer
mirroring json.Marshal of the fixed-shape payload map (sorted keys, HTML
escaping).  Effects (the single Post call, the published outputs, the two
output streams of the process) are recorded in explicit result structures.
-/

namespace Forwarder

/-- A decoded JSON value.  Numbers are kept exact as mantissa times a power
of ten; Go decodes them into float64, which no claim here inspects beyond
integral literals, so the exact form is a faithful stand-in.  Objects are
member lists in source order; lookups below take the last binding, matching
the overwrite behaviour of decoding duplicate keys into a Go map. -/
inductive Json where
  | null : Json
  | bool (b : Bool) : Json
  | num (mant : Int) (exp10 : Int) : Json
  | str (s : String) : Json
  | arr (elems : List Json) : Json
  | obj (members : List (String × Json)) : Json

/-- JSON insignificant whitespace, as accepted by Go's scanner: space, tab,
line feed, carriage return. -/
def isWsChar (c : Char) : Bool :=
  c.toNat = 32 || c.toNat = 9 || c.toNat = 10 || c.toNat = 13

/-- Drop leading JSON whitespace. -/
def skipWs (cs : List Char) : List Char :=
  cs.dropWhile isWsChar

/-- True when only JSON whitespace remains. -/
def allWhitespace : List Char → Bool
  | [] => true
  | c :: cs => isWsChar c && allWhitespace cs

/-- Value of one hexadecimal digit, by code point range. -/
def hexDigitValue (c : Char) : Option Nat :=
  let n := c.toNat
  if 48 ≤ n ∧ n ≤ 57 then some (n - 48)
  else if 97 ≤ n ∧ n ≤ 102 then some (n - 87)
  else if 65 ≤ n ∧ n ≤ 70 then some (n - 55)
  else none

/-- Value of a four-digit hexadecimal escape, accumulated base 16. -/
def hexQuad (a b c d : Char) : Option Nat :=
  match [a, b, c, d].mapM hexDigitValue with
  | some vs => some (vs.foldl (fun acc v => acc * 16 + v) 0)
  | none => none

/-- Character denoted by a unicode escape: surrogate halves become U+FFFD.
(Go additionally recombines adjacent surrogate-pair escapes; no input in
this development contains unicode escapes, so pairs are not recombined
here and each escape decodes independently.) -/
def uCharOf (n : Nat) : Char :=
  if 0xD800 ≤ n ∧ n < 0xE000 then '�' else Char.ofNat n

/-- Body of a JSON string after the opening quote, accumulating decoded
characters in reverse.  Mirrors Go's unquoting: the simple escapes, unicode
escapes, and a hard error on raw control characters. -/
def scanStringBody : List Char → List Char → Option (String × List Char)
  | '"' :: rest, acc => some (String.mk acc.reverse, rest)
  | '\\' :: 'u' :: a :: b :: c :: d :: rest, acc =>
    match hexQuad a b c d with
    | none => none
    | some n => scanStringBody rest (uCharOf n :: acc)
  | '\\' :: '"' :: rest, acc => scanStringBody rest ('"' :: acc)
  | '\\' :: '\\' :: rest, acc => scanStringBody rest ('\\' :: acc)
  | '\\' :: '/' :: rest, acc => scanStringBody rest ('/' :: acc)
  | '\\' :: 'b' :: rest, acc => scanStringBody rest (Char.ofNat 8 :: acc)
  | '\\' :: 'f' :: rest, acc => scanStringBody rest (Char.ofNat 12 :: acc)
  | '\\' :: 'n' :: rest, acc => scanStringBody rest ('\n' :: acc)
  | '\\' :: 'r' :: rest, acc => scanStringBody rest ('\r' :: acc)
  | '\\' :: 't' :: rest, acc => scanStringBody rest ('\t' :: acc)
  | '\\' :: _, _ => none
  | c :: rest, acc => if c.toNat < 32 then none else scanStringBody rest (c :: acc)
  | [], _ => none

/-- Longest leading run of decimal digits, with what follows it. -/
def takeDigits (cs : List Char) : List Char × List Char :=
  (cs.takeWhile Char.isDigit, cs.dropWhile Char.isDigit)

/-- Numeric value of a digit run. -/
def natOfDigits (ds : List Char) : Nat :=
  ds.foldl (fun a c => 10 * a + (c.toNat - 48)) 0

/-- JSON forbids leading zeros in the integer part. -/
def intDigitsOk : List Char → Bool
  | '0' :: rest => rest.isEmpty
  | _ => true

/-- Exponent digits after any sign; produces the finished number. -/
def scanExpDigits (cs : List Char) (m e : Int) (negExp : Bool) :
    Option (Json × List Char) :=
  match takeDigits cs with
  | ([], _) => none
  | (ds, rest) =>
    some (Json.num m (if negExp then e - (natOfDigits ds : Int) else e + (natOfDigits ds : Int)),
      rest)

/-- Optional exponent part of a number. -/
def scanExpPart (cs : List Char) (m e : Int) : Option (Json × List Char) :=
  match cs with
  | 'e' :: '+' :: rest => scanExpDigits rest m e false
  | 'e' :: '-' :: rest => scanExpDigits rest m e true
  | 'e' :: rest => scanExpDigits rest m e false
  | 'E' :: '+' :: rest => scanExpDigits rest m e false
  | 'E' :: '-' :: rest => scanExpDigits rest m e true
  | 'E' :: rest => scanExpDigits rest m e false
  | _ => some (Json.num m e, cs)

/-- Signed mantissa from the scanned digits. -/
def signedMant (neg : Bool) (ds : List Char) : Int :=
  if neg then -(natOfDigits ds : Int) else (natOfDigits ds : Int)

/-- Digits of a number after an optional minus sign. -/
def scanNumAfterSign (cs : List Char) (neg : Bool) : Option (Json × List Char) :=
  match takeDigits cs with
  | ([], _) => none
  | (ds, rest) =>
    if intDigitsOk ds then
      match rest with
      | '.' :: rest2 =>
        match takeDigits rest2 with
        | ([], _) => none
        | (fs, rest3) => scanExpPart rest3 (signedMant neg (ds ++ fs)) (-(fs.length : Int))
      | _ => scanExpPart rest (signedMant neg ds) 0
    else none

/-- A JSON number literal, per the grammar Go's scanner enforces. -/
def scanNumber (cs : List Char) : Option (Json × List Char) :=
  match cs with
  | '-' :: rest => scanNumAfterSign rest true
  | _ => scanNumAfterSign cs false

/-- One-or-more comma-separated array elements, given a parser `pv` for a
single value; the element count is bounded by the `fuel`. -/
def scanElements (pv : List Char → Option (Json × List Char)) :
    Nat → List Char → List Json → Option (Json × List Char)
  | 0, _, _ => none
  | k + 1, cs, acc =>
    match pv cs with
    | none => none
    | some (v, rest) =>
      match skipWs rest with
      | ',' :: rest2 => scanElements pv k rest2 (acc ++ [v])
      | ']' :: rest2 => some (Json.arr (acc ++ [v]), rest2)
      | _ => none

/-- One-or-more comma-separated object members, given a parser `pv` for a
single value. -/
def scanMembers (pv : List Char → Option (Json × List Char)) :
    Nat → List Char → List (String × Json) → Option (Json × List Char)
  | 0, _, _ => none
  | k + 1, cs, acc =>
    match skipWs cs with
    | '"' :: rest =>
      match scanStringBody rest [] with
      | none => none
      | some (key, rest2) =>
        match skipWs rest2 with
        | ':' :: rest3 =>
          match pv rest3 with
          | none => none
          | some (v, rest4) =>
            match skipWs rest4 with
            | ',' :: rest5 => scanMembers pv k rest5 (acc ++ [(key, v)])
            | '\x7d' :: rest5 => some (Json.obj (acc ++ [(key, v)]), rest5)
            | _ => none
        | _ => none
    | _ => none

/-- One JSON value at the front of the input, leaving the rest unread: the
recursion on `fuel` bounds the nesting depth, which a character of input pays
for at every level, so `length + 1` fuel always suffices. -/
def scanValue : Nat → List Char → Option (Json × List Char)
  | 0, _ => none
  | f + 1, cs =>
    match skipWs cs with
    | 'n' :: 'u' :: 'l' :: 'l' :: rest => some (Json.null, rest)
    | 't' :: 'r' :: 'u' :: 'e' :: rest => some (Json.bool true, rest)
    | 'f' :: 'a' :: 'l' :: 's' :: 'e' :: rest => some (Json.bool false, rest)
    | '"' :: rest =>
      match scanStringBody rest [] with
      | some (s, rest2) => some (Json.str s, rest2)
      | none => none
    | '[' :: rest =>
      match skipWs rest with
      | ']' :: rest2 => some (Json.arr [], rest2)
      | rest2 => scanElements (scanValue f) (rest2.length + 1) rest2 []
    | '\x7b' :: rest =>
      match skipWs rest with
      | '\x7d' :: rest2 => some (Json.obj [], rest2)
      | rest2 => scanMembers (scanValue f) (rest2.length + 1) rest2 []
    | rest => scanNumber rest

/-- The next JSON value in a string, as `json.Decoder.Decode` reads it:
only the first value is consumed and whatever follows it is left unread. -/
def decodeValue (s : String) : Option (Json × List Char) :=
  scanValue (s.length + 1) s.data

/-- Diagnostic for a body in which no JSON value could be read. -/
def invalidJsonMsg : String := "invalid JSON in response body"

/-- Diagnostic for a JSON value that is not an object (Go: cannot unmarshal
into a map). -/
def notObjectMsg : String := "cannot unmarshal value into map"

/-- Diagnostic for data after the first top-level JSON value, used only by
whole-document validity below. -/
def trailingMsg : String := "data after top-level JSON value"

/-- Whole-document JSON validity: one value followed by nothing but
whitespace.  This is the usual meaning of a byte string being valid JSON;
note it is stricter than what `decodeValue` (and hence the Forwarder's parse
step) demands. -/
def Json.parse (s : String) : Except String Json :=
  match decodeValue s with
  | none => Except.error invalidJsonMsg
  | some (v, rest) =>
    if allWhitespace rest = true then Except.ok v else Except.error trailingMsg

/-- Decoding the response body into a Go `map[string]interface` value, as
`parseResponse` does with `json.NewDecoder(resp.Body).Decode(&result)`: read
the first JSON value only; an object fills the map, `null` leaves it nil
(so every lookup yields nil, modelled by the empty member list), and any
other value is a type error. -/
def decodeBody (s : String) : Except String (List (String × Json)) :=
  match decodeValue s with
  | none => Except.error invalidJsonMsg
  | some (Json.obj kvs, _) => Except.ok kvs
  | some (Json.null, _) => Except.ok []
  | some (_, _) => Except.error notObjectMsg

/-- Go map indexing over the decoded members: the last binding of a key wins
(duplicate keys overwrite on decode), and a missing key yields nil (`none`). -/
def mapGet (kvs : List (String × Json)) (k : String) : Option Json :=
  kvs.foldl (fun acc p => if p.1 = k then some p.2 else acc) none

/-! ### Rendering, as `json.Marshal` of the fixed-shape payload map -/

/-- Hexadecimal digit character, lowercase as Go's encoder writes it. -/
def lowerHexDigit (n : Nat) : Char :=
  Char.ofNat (if n ≤ 9 then 48 + n else 87 + n)

/-- The six-character escape Go's encoder writes for a code point below
0x100: backslash, `u`, two zeros, and the two hex digits. -/
def controlEscape (n : Nat) : List Char :=
  '\\' :: 'u' :: '0' :: '0' :: lowerHexDigit (n / 16) :: [lowerHexDigit (n % 16)]

/-- Encoding of one character inside a JSON string, following Go's encoder:
quote, backslash and the three named control characters get two-character
escapes, other control characters a `\u00` escape, and the HTML-sensitive
characters `<`, `>`, `&` and the separators U+2028/U+2029 are `\u`-escaped
because `Marshal` HTML-escapes by default. -/
def escChar (c : Char) : List Char :=
  if c = '"' then ['\\', '"']
  else if c = '\\' then ['\\', '\\']
  else if c = '\n' then ['\\', 'n']
  else if c = '\r' then ['\\', 'r']
  else if c = '\t' then ['\\', 't']
  else if c.toNat < 32 then controlEscape c.toNat
  else if c = '<' then controlEscape 0x3c
  else if c = '>' then controlEscape 0x3e
  else if c = '&' then controlEscape 0x26
  else if c.toNat = 0x2028 then ['\\', 'u', '2', '0', '2', '8']
  else if c.toNat = 0x2029 then ['\\', 'u', '2', '0', '2', '9']
  else [c]

/-- A quoted, escaped JSON string literal. -/
def quoteStr (s : String) : String :=
  String.mk ('"' :: (s.data.map escChar).flatten ++ ['"'])

/-- Byte-order comparison of keys (UTF-8 byte order coincides with code-point
order), as Go sorts map keys when marshaling. -/
def charListLt : List Char → List Char → Bool
  | [], [] => false
  | [], _ :: _ => true
  | _ :: _, [] => false
  | a :: as, b :: bs =>
    if a.toNat < b.toNat then true
    else if b.toNat < a.toNat then false
    else charListLt as bs

/-- String key order used for marshaling maps. -/
def strLtB (a b : String) : Bool := charListLt a.data b.data

/-- Ordered insert for the key sort. -/
def insertByKey (p : String × String) : List (String × String) → List (String × String)
  | [] => [p]
  | q :: qs => if strLtB q.1 p.1 then q :: insertByKey p qs else p :: q :: qs

/-- Map entries in ascending key order, as `json.Marshal` emits them. -/
def sortByKey : List (String × String) → List (String × String)
  | [] => []
  | p :: ps => insertByKey p (sortByKey ps)

/-- Comma-separated concatenation. -/
def commaJoin : List String → String
  | [] => ""
  | [s] => s
  | s :: ss => s ++ "," ++ commaJoin ss

/-- Marshaling of a Go `map[string]string` value: members in ascending key
order, keys and values quoted. -/
def serializeStringMap (m : List (String × String)) : String :=
  "\x7b" ++ commaJoin ((sortByKey m).map (fun p => quoteStr p.1 ++ ":" ++ quoteStr p.2)) ++ "\x7d"

/-! ### The Forwarder program -/

/-- Configuration for the request (struct `Config`). The Go header map is an
association list here; marshaling sorts it. -/
structure Config where
  ConnectionsURL : String
  TargetURL : String
  Headers : List (String × String)

/-- The default configuration (`DefaultConfig`). -/
def DefaultConfig : Config :=
  { ConnectionsURL := "http://localhost:8081/api/v1/connections/send"
    TargetURL := "https://httpbin.org/get"
    Headers := [("User-Agent", "Visual-Go-Test/1.0"), ("Accept", "application/json")] }

/-- Outcome of one `Post` call of the injected HTTP client: a transport
error, or a response carrying a body. -/
inductive PostResult where
  | err (msg : String) : PostResult
  | resp (body : String) : PostResult

/-- Arguments of one `Post` call, recorded so theorems can speak about the
calls a run performs. -/
structure PostCall where
  url : String
  contentType : String
  body : String

/-- The dependency-injected application (struct `App`): an HTTP client
behaviour and a configuration.  The client is the one free input of a run. -/
structure App where
  client : String → String → String → PostResult
  config : Config

/-- Constructor `NewApp`. -/
def NewApp (client : String → String → String → PostResult) (config : Config) : App :=
  { client := client, config := config }

/-- Method `preparePayload`: `json.Marshal` of the payload map
`method:"GET", url:TargetURL, headers:Headers`.  Go emits the three keys in
sorted order — `headers`, `method`, `url` — and marshaling this map of
strings cannot fail, so the Go error result is always nil and is omitted. -/
def App.preparePayload (a : App) : String :=
  "\x7b\"headers\":" ++ serializeStringMap a.config.Headers ++
    ",\"method\":\"GET\",\"url\":" ++ quoteStr a.config.TargetURL ++ "\x7d"

/-- Method `sendRequest`: one `Post` to the connections URL with content type
`application/json` and the payload as body; the call made is returned
alongside the client's answer. -/
def App.sendRequest (a : App) (payload : String) : PostCall × PostResult :=
  (⟨a.config.ConnectionsURL, "application/json", payload⟩,
    a.client a.config.ConnectionsURL "application/json" payload)

/-- The HTTP response body as a closable resource: its text, and how many
times `Close` has been called on it. -/
structure HttpResponse where
  body : String
  closeCount : Nat

/-- `resp.Body.Close()`. -/
def closeBody (r : HttpResponse) : HttpResponse :=
  { r with closeCount := r.closeCount + 1 }

/-- Method `parseResponse`: decode the body into a map; the deferred
`resp.Body.Close()` runs when the function returns, on the success exit path
and on the decode-failure exit path alike. -/
def App.parseResponse (_a : App) (resp : HttpResponse) :
    Except String (List (String × Json)) × HttpResponse :=
  match decodeBody resp.body with
  | Except.error e => (Except.error e, closeBody resp)
  | Except.ok kvs => (Except.ok kvs, closeBody resp)

/-- Method `setOutputs`: the mapping handed to the external `SetOutputs`.
The proxy keys read are `status_code`, `body` and `duration`; the output key
for the proxy's `body` value is `response_body` in the source. -/
def App.setOutputs (_a : App) (result : List (String × Json)) :
    List (String × Option Json) :=
  [("status_code", mapGet result "status_code"),
   ("response_body", mapGet result "body"),
   ("duration", mapGet result "duration")]

/-- Observable effects of one `Run`: the `Post` calls made in order, the
mapping given to `SetOutputs` if it was called, and the error `Run`
returned, if any. -/
structure RunResult where
  calls : List PostCall
  published : Option (List (String × Option Json))
  runError : Option String

/-- Method `Run`: prepare the payload (cannot fail), send it, parse the
response, publish the outputs; each failure aborts the run with a
stage-prefixed error and nothing published. -/
def App.Run (a : App) : RunResult :=
  match a.sendRequest a.preparePayload with
  | (call, PostResult.err e) =>
    { calls := [call], published := none,
      runError := some ("failed to send request: " ++ e) }
  | (call, PostResult.resp body) =>
    match a.parseResponse ⟨body, 0⟩ with
    | (Except.error e, _) =>
      { calls := [call], published := none,
        runError := some ("failed to parse response: " ++ e) }
    | (Except.ok kvs, _) =>
      { calls := [call], published := some (a.setOutputs kvs), runError := none }

/-- What the process wrote on each standard stream, and what it published. -/
structure MainResult where
  stdout : String
  stderr : String
  published : Option (List (String × Option Json))

/-- The Forwarder's `main`: run the app over the default configuration and,
if `Run` failed, report it with `fmt.Printf("Error: %v\n", err)` — which
writes to standard output; nothing is ever written to standard error. -/
def mainModel (client : String → String → String → PostResult) : MainResult :=
  match (NewApp client DefaultConfig).Run with
  | { calls := _, published := p, runError := some e } =>
    { stdout := "Error: " ++ e ++ "\n", stderr := "", published := p }
  | { calls := _, published := p, runError := none } =>
    { stdout := "", stderr := "", published := p }

/-- Whether a decoded value is accepted by decoding into a Go map: only
objects and `null` are. -/
def isObjOrNull : Json → Bool
  | Json.obj _ => true
  | Json.null => true
  | _ => false

/-- Substring test used to state stream-content facts. -/
def startsWithChars : List Char → List Char → Bool
  | [], _ => true
  | _ :: _, [] => false
  | p :: ps, c :: cs => p = c && startsWithChars ps cs

/-- Substring search helper over character lists. -/
def strContainsAux (pat : List Char) : List Char → Bool
  | [] => pat.isEmpty
  | c :: t => startsWithChars pat (c :: t) || strContainsAux pat t

/-- `strContains s pat` holds when `pat` occurs contiguously in `s`. -/
def strContains (s pat : String) : Bool := strContainsAux pat.data s.data

/-- A client whose `Post` always fails with the given transport error. -/
def errClient (msg : String) : String → String → String → PostResult :=
  fun _ _ _ => PostResult.err msg

/-- A client whose `Post` always answers with the given response body. -/
def respClient (body : String) : String → String → String → PostResult :=
  fun _ _ _ => PostResult.resp body

end Forwarder

namespace Greeter

/-- A step-input value, as far as the Greeter inspects one: a string, or
anything that fails the `.(string)` type assertion (including nil for a
missing key). -/
inductive InputVal where
  | str (s : String) : InputVal
  | nonString : InputVal

/-- Go map indexing on the inputs mapping; a missing key yields nil, which
the type assertion then rejects. -/
def lookupInput : List (String × InputVal) → String → Option InputVal
  | [], _ => none
  | p :: ps, k => if p.1 = k then some p.2 else lookupInput ps k

/-- Modelled from the spec: the repository's `getMessage` function is called
from src/main.go but its definition is not under src/; per the spec the
Greeter's message is the greeting `"Hello, \x7bname\x7d!"` for the chosen
subject. -/
def getMessage (name : String) : String := "Hello, " ++ name ++ "!"

/-- The Greeter's `main`: read input `name`; when the type assertion fails
(absent key or non-string value) or the string is empty, greet the default
subject `"World"`; publish the single output `message`. -/
def mainModel (inputs : List (String × InputVal)) : List (String × String) :=
  let name :=
    match lookupInput inputs "name" with
    | some (InputVal.str s) => if s = "" then "World" else s
    | _ => "World"
  [("message", getMessage name)]

end Greeter


/-! ## Helper lemmas about `Run` -/

open Forwarder

/-- `parseResponse` always decodes the body and closes it exactly once. -/
theorem Forwarder.parseResponse_eq (a : App) (r : HttpResponse) :
    a.parseResponse r = (decodeBody r.body, closeBody r) := by
  unfold Forwarder.App.parseResponse
  cases Forwarder.decodeBody r.body <;> rfl

/-- A transport error makes `Run` fail at the send stage with nothing
published and the one call recorded. -/
theorem Forwarder.run_send_err (a : App) (e : String)
    (h : a.client a.config.ConnectionsURL "application/json" a.preparePayload =
      PostResult.err e) :
    a.Run =
      { calls := [⟨a.config.ConnectionsURL, "application/json", a.preparePayload⟩],
        published := none,
        runError := some ("failed to send request: " ++ e) } := by
  simp only [Forwarder.App.Run, Forwarder.App.sendRequest, h]

/-- A response whose body fails to decode makes `Run` fail at the parse
stage with nothing published and the one call recorded. -/
theorem Forwarder.run_parse_err (a : App) (body e : String)
    (h1 : a.client a.config.ConnectionsURL "application/json" a.preparePayload =
      PostResult.resp body)
    (h2 : decodeBody body = Except.error e) :
    a.Run =
      { calls := [⟨a.config.ConnectionsURL, "application/json", a.preparePayload⟩],
        published := none,
        runError := some ("failed to parse response: " ++ e) } := by
  simp only [Forwarder.App.Run, Forwarder.App.sendRequest, h1,
    Forwarder.parseResponse_eq, h2]

/-- A response whose body decodes makes `Run` succeed, publishing the three
outputs built by `setOutputs` from the decoded mapping. -/
theorem Forwarder.run_parse_ok (a : App) (body : String) (kvs : List (String × Json))
    (h1 : a.client a.config.ConnectionsURL "application/json" a.preparePayload =
      PostResult.resp body)
    (h2 : decodeBody body = Except.ok kvs) :
    a.Run =
      { calls := [⟨a.config.ConnectionsURL, "application/json", a.preparePayload⟩],
        published := some (a.setOutputs kvs),
        runError := none } := by
  simp only [Forwarder.App.Run, Forwarder.App.sendRequest, h1,
    Forwarder.parseResponse_eq, h2]

/-- A value that is valid JSON but neither an object nor `null` is rejected
when decoded into the Go result map. -/
theorem Forwarder.decodeBody_of_nonObject (body : String) (v : Json)
    (hp : Json.parse body = Except.ok v) (ho : isObjOrNull v = false) :
    decodeBody body = Except.error notObjectMsg := by
  simp only [Forwarder.Json.parse] at hp
  cases hdv : Forwarder.decodeValue body with
  | none => rw [hdv] at hp; cases hp
  | some pr =>
    obtain ⟨v', rest⟩ := pr
    rw [hdv] at hp
    dsimp only at hp
    split at hp
    · cases hp
      unfold Forwarder.decodeBody
      rw [hdv]
      cases v with
      | obj kvs => exact absurd ho (by simp [Forwarder.isObjOrNull])
      | null => exact absurd ho (by simp [Forwarder.isObjOrNull])
      | bool b => rfl
      | num m e => rfl
      | str s => rfl
      | arr xs => rfl
    · cases hp

/-! ## Claims -/

/-- Claim C1, counterexample: with the proxy response
`\x7b"status_code":200,"body":"ok","duration":"10ms"\x7d`, the published output
keys are `status_code`, `response_body`, `duration` — the mapping is NOT
`\x7bstatus_code, body, duration\x7d` as the claim states, because the proxy key
`body` is republished under the output key `response_body`. -/
theorem C1_counterexample :
    (Forwarder.App.Run (Forwarder.NewApp
        (Forwarder.respClient "\x7b\"status_code\":200,\"body\":\"ok\",\"duration\":\"10ms\"\x7d")
        Forwarder.DefaultConfig)).published.map (fun l => l.map Prod.fst) =
      some ["status_code", "response_body", "duration"] ∧
    (Forwarder.App.Run (Forwarder.NewApp
        (Forwarder.respClient "\x7b\"status_code\":200,\"body\":\"ok\",\"duration\":\"10ms\"\x7d")
        Forwarder.DefaultConfig)).published ≠
      some [("status_code", some (Forwarder.Json.num 200 0)),
            ("body", some (Forwarder.Json.str "ok")),
            ("duration", some (Forwarder.Json.str "10ms"))] := by
  refine ⟨rfl, fun h => ?_⟩
  have h2 := congrArg (fun o => Option.map (fun l => List.map Prod.fst l) o) h
  exact absurd h2 (by decide)

/-- Claim C1, amended: with that proxy response the step outputs are exactly
the mapping `status_code:200, response_body:"ok", duration:"10ms"` — the
values of proxy keys `status_code`, `body`, `duration` under output keys
`status_code`, `response_body`, `duration` — and the run succeeds. -/
theorem C1_theorem :
    (Forwarder.App.Run (Forwarder.NewApp
        (Forwarder.respClient "\x7b\"status_code\":200,\"body\":\"ok\",\"duration\":\"10ms\"\x7d")
        Forwarder.DefaultConfig)).runError = none ∧
    (Forwarder.App.Run (Forwarder.NewApp
        (Forwarder.respClient "\x7b\"status_code\":200,\"body\":\"ok\",\"duration\":\"10ms\"\x7d")
        Forwarder.DefaultConfig)).published =
      some [("status_code", some (Forwarder.Json.num 200 0)),
            ("response_body", some (Forwarder.Json.str "ok")),
            ("duration", some (Forwarder.Json.str "10ms"))] :=
  ⟨rfl, rfl⟩

/-- Claim C2, counterexample: on a send failure the stage-prefixed message is
written to standard output by `fmt.Printf`, and standard error stays empty —
the claim that errors are reported to the standard error stream is false. -/
theorem C2_counterexample :
    (Forwarder.mainModel (Forwarder.errClient "network error")).stderr = "" ∧
    Forwarder.strContains (Forwarder.mainModel (Forwarder.errClient "network error")).stderr
      "failed to send request" = false ∧
    Forwarder.strContains (Forwarder.mainModel (Forwarder.errClient "network error")).stdout
      "failed to send request" = true ∧
    (Forwarder.mainModel (Forwarder.errClient "network error")).published = none :=
  ⟨rfl, rfl, rfl, rfl⟩

/-- Claim C2, amended: every error of a Forwarder run (send failure or parse
failure) is reported to standard output as `"Error: "` followed by the
stage-prefixed message, nothing is written to standard error, and no outputs
are published for that run. -/
theorem C2_theorem :
    (∀ (client : String → String → String → Forwarder.PostResult) (e : String),
      client Forwarder.DefaultConfig.ConnectionsURL "application/json"
          (Forwarder.App.preparePayload (Forwarder.NewApp client Forwarder.DefaultConfig)) =
        Forwarder.PostResult.err e →
      Forwarder.mainModel client =
        { stdout := "Error: failed to send request: " ++ e ++ "\n",
          stderr := "", published := none }) ∧
    (∀ (client : String → String → String → Forwarder.PostResult) (body e : String),
      client Forwarder.DefaultConfig.ConnectionsURL "application/json"
          (Forwarder.App.preparePayload (Forwarder.NewApp client Forwarder.DefaultConfig)) =
        Forwarder.PostResult.resp body →
      Forwarder.decodeBody body = Except.error e →
      Forwarder.mainModel client =
        { stdout := "Error: failed to parse response: " ++ e ++ "\n",
          stderr := "", published := none }) := by
  constructor
  · intro client e h
    have hr := Forwarder.run_send_err (Forwarder.NewApp client Forwarder.DefaultConfig) e h
    simp only [Forwarder.mainModel, hr]
    rw [← String.append_assoc]
    rfl
  · intro client body e h1 h2
    have hr := Forwarder.run_parse_err (Forwarder.NewApp client Forwarder.DefaultConfig)
      body e h1 h2
    simp only [Forwarder.mainModel, hr]
    rw [← String.append_assoc]
    rfl

/-- Claim C2, witness: the amended statement applied at a failing transport
and at a non-JSON response body. -/
theorem C2_witness :
    Forwarder.mainModel (Forwarder.errClient "network error") =
      { stdout := "Error: failed to send request: network error\n",
        stderr := "", published := none } ∧
    Forwarder.mainModel (Forwarder.respClient "not json") =
      { stdout := "Error: failed to parse response: invalid JSON in response body\n",
        stderr := "", published := none } :=
  ⟨C2_theorem.1 (Forwarder.errClient "network error") "network error" rfl,
   C2_theorem.2 (Forwarder.respClient "not json") "not json" Forwarder.invalidJsonMsg rfl rfl⟩

/-- Claim C3: for every run of the Forwarder — `main` always uses
`DefaultConfig`, whatever the injected client does — the outbound body built
by `preparePayload`, parsed back as JSON, is exactly the mapping
`method:"GET", url:<configured target URL>, headers:<configured headers>`
(members appear in the sorted key order `headers`, `method`, `url` in which
Go marshals a map; as a mapping the order is immaterial).  The payload does
not depend on the proxy's response at all. -/
theorem C3_theorem :
    ∀ client : String → String → String → Forwarder.PostResult,
      Forwarder.Json.parse
          (Forwarder.App.preparePayload (Forwarder.NewApp client Forwarder.DefaultConfig)) =
        Except.ok (Forwarder.Json.obj
          [("headers", Forwarder.Json.obj
              [("Accept", Forwarder.Json.str "application/json"),
               ("User-Agent", Forwarder.Json.str "Visual-Go-Test/1.0")]),
           ("method", Forwarder.Json.str "GET"),
           ("url", Forwarder.Json.str Forwarder.DefaultConfig.TargetURL)]) :=
  fun _ => rfl

/-- Claim C3, witness: the statement at a concrete client. -/
theorem C3_witness :
    Forwarder.Json.parse
        (Forwarder.App.preparePayload
          (Forwarder.NewApp (Forwarder.errClient "down") Forwarder.DefaultConfig)) =
      Except.ok (Forwarder.Json.obj
        [("headers", Forwarder.Json.obj
            [("Accept", Forwarder.Json.str "application/json"),
             ("User-Agent", Forwarder.Json.str "Visual-Go-Test/1.0")]),
         ("method", Forwarder.Json.str "GET"),
         ("url", Forwarder.Json.str "https://httpbin.org/get")]) :=
  C3_theorem (Forwarder.errClient "down")

/-- Claim C4: whenever the client's `Post` returns an error, `Run` returns
the error `"failed to send request: "` followed by the transport error —
so the message contains `"failed to send request"` — and no outputs are
published (`SetOutputs` is never reached). -/
theorem C4_theorem :
    ∀ (cfg : Forwarder.Config) (client : String → String → String → Forwarder.PostResult)
      (e : String),
      client cfg.ConnectionsURL "application/json"
          (Forwarder.App.preparePayload (Forwarder.NewApp client cfg)) =
        Forwarder.PostResult.err e →
      (Forwarder.App.Run (Forwarder.NewApp client cfg)).runError =
          some ("failed to send request: " ++ e) ∧
        (Forwarder.App.Run (Forwarder.NewApp client cfg)).published = none := by
  intro cfg client e h
  have hr := Forwarder.run_send_err (Forwarder.NewApp client cfg) e h
  exact ⟨by rw [hr], by rw [hr]⟩

/-- Claim C4, witness: the statement at the default configuration and an
always-failing client. -/
theorem C4_witness :
    (Forwarder.App.Run (Forwarder.NewApp (Forwarder.errClient "boom")
        Forwarder.DefaultConfig)).runError = some "failed to send request: boom" ∧
    (Forwarder.App.Run (Forwarder.NewApp (Forwarder.errClient "boom")
        Forwarder.DefaultConfig)).published = none :=
  C4_theorem Forwarder.DefaultConfig (Forwarder.errClient "boom") "boom" rfl

/-- Claim C5, counterexample: the body `\x7b\x7dx` is not valid JSON (there is
data after the top-level value), yet `Run` succeeds and publishes outputs,
because `json.Decoder.Decode` reads only the first JSON value and ignores
what follows — so "invalid JSON body implies a parse error" is false. -/
theorem C5_counterexample :
    Forwarder.Json.parse "\x7b\x7dx" = Except.error Forwarder.trailingMsg ∧
    (Forwarder.App.Run (Forwarder.NewApp (Forwarder.respClient "\x7b\x7dx")
        Forwarder.DefaultConfig)).runError = none ∧
    (Forwarder.App.Run (Forwarder.NewApp (Forwarder.respClient "\x7b\x7dx")
        Forwarder.DefaultConfig)).published =
      some [("status_code", none), ("response_body", none), ("duration", none)] :=
  ⟨rfl, rfl, rfl⟩

/-- Claim C5, amended: whenever decoding the first JSON value from the
response body fails (which covers every body with no valid JSON object or
`null` prefix; a body that merely has trailing data after a valid first
value is accepted instead), `Run` returns the error
`"failed to parse response: "` followed by the decode diagnostic and no
outputs are published. -/
theorem C5_theorem :
    ∀ (cfg : Forwarder.Config) (client : String → String → String → Forwarder.PostResult)
      (body e : String),
      client cfg.ConnectionsURL "application/json"
          (Forwarder.App.preparePayload (Forwarder.NewApp client cfg)) =
        Forwarder.PostResult.resp body →
      Forwarder.decodeBody body = Except.error e →
      (Forwarder.App.Run (Forwarder.NewApp client cfg)).runError =
          some ("failed to parse response: " ++ e) ∧
        (Forwarder.App.Run (Forwarder.NewApp client cfg)).published = none := by
  intro cfg client body e h1 h2
  have hr := Forwarder.run_parse_err (Forwarder.NewApp client cfg) body e h1 h2
  exact ⟨by rw [hr], by rw [hr]⟩

/-- Claim C5, witness: the amended statement at the default configuration
and the invalid body `"invalid json"`. -/
theorem C5_witness :
    (Forwarder.App.Run (Forwarder.NewApp (Forwarder.respClient "invalid json")
        Forwarder.DefaultConfig)).runError =
      some "failed to parse response: invalid JSON in response body" ∧
    (Forwarder.App.Run (Forwarder.NewApp (Forwarder.respClient "invalid json")
        Forwarder.DefaultConfig)).published = none :=
  C5_theorem Forwarder.DefaultConfig (Forwarder.respClient "invalid json")
    "invalid json" Forwarder.invalidJsonMsg rfl rfl

/-- Claim C6: when the `name` input is absent, non-string, or the empty
string, the Greeter's `message` output is the greeting for the default
subject `"World"`; for a non-empty string `name` the message is
`"Hello, " ++ name ++ "!"`, which contains exactly that string.  The
greeting function is modelled from the spec, `getMessage` not being under
src/. -/
theorem C6_theorem :
    ∀ inputs : List (String × Greeter.InputVal),
      ((Greeter.lookupInput inputs "name" = none ∨
        Greeter.lookupInput inputs "name" = some Greeter.InputVal.nonString ∨
        Greeter.lookupInput inputs "name" = some (Greeter.InputVal.str "")) →
        Greeter.mainModel inputs = [("message", Greeter.getMessage "World")]) ∧
      (∀ s : String, s ≠ "" →
        Greeter.lookupInput inputs "name" = some (Greeter.InputVal.str s) →
        Greeter.mainModel inputs = [("message", "Hello, " ++ s ++ "!")]) := by
  intro inputs
  constructor
  · intro h
    rcases h with h | h | h <;> simp [Greeter.mainModel, h]
  · intro s hs hl
    simp only [Greeter.mainModel, hl, if_neg hs]
    rfl

/-- Claim C6, witness: an absent key, a non-string value, the empty string,
and a non-empty name. -/
theorem C6_witness :
    Greeter.mainModel [] = [("message", "Hello, World!")] ∧
    Greeter.mainModel [("name", Greeter.InputVal.nonString)] =
      [("message", "Hello, World!")] ∧
    Greeter.mainModel [("name", Greeter.InputVal.str "")] =
      [("message", "Hello, World!")] ∧
    Greeter.mainModel [("name", Greeter.InputVal.str "Ada")] =
      [("message", "Hello, Ada!")] :=
  ⟨(C6_theorem []).1 (Or.inl rfl),
   (C6_theorem [("name", Greeter.InputVal.nonString)]).1 (Or.inr (Or.inl rfl)),
   (C6_theorem [("name", Greeter.InputVal.str "")]).1 (Or.inr (Or.inr rfl)),
   (C6_theorem [("name", Greeter.InputVal.str "Ada")]).2 "Ada" (by decide) rfl⟩

/-- Claim C7, counterexample: on the proxy response `\x7b\x7d` the run
succeeds, but the outputs published are keyed `status_code`,
`response_body`, `duration` — there is no `body` output, so the claim's
list of output names is wrong. -/
theorem C7_counterexample :
    (Forwarder.App.Run (Forwarder.NewApp (Forwarder.respClient "\x7b\x7d")
        Forwarder.DefaultConfig)).runError = none ∧
    (Forwarder.App.Run (Forwarder.NewApp (Forwarder.respClient "\x7b\x7d")
        Forwarder.DefaultConfig)).published ≠
      some [("status_code", none), ("body", none), ("duration", none)] := by
  refine ⟨rfl, fun h => ?_⟩
  have h2 := congrArg (fun o => Option.map (fun l => List.map Prod.fst l) o) h
  exact absurd h2 (by decide)

/-- Claim C7, amended: on the proxy response `\x7b\x7d` the run succeeds and
all three outputs — `status_code`, `response_body` and `duration` — are
published with nil values. -/
theorem C7_theorem :
    (Forwarder.App.Run (Forwarder.NewApp (Forwarder.respClient "\x7b\x7d")
        Forwarder.DefaultConfig)).runError = none ∧
    (Forwarder.App.Run (Forwarder.NewApp (Forwarder.respClient "\x7b\x7d")
        Forwarder.DefaultConfig)).published =
      some [("status_code", none), ("response_body", none), ("duration", none)] :=
  ⟨rfl, rfl⟩

/-- Claim C8: every run over the default configuration makes exactly one
`Post` call, to `http://localhost:8081/api/v1/connections/send` with content
type `application/json` and the serialized payload as body, whatever the
client answers. -/
theorem C8_theorem :
    ∀ client : String → String → String → Forwarder.PostResult,
      (Forwarder.App.Run (Forwarder.NewApp client Forwarder.DefaultConfig)).calls =
        [⟨"http://localhost:8081/api/v1/connections/send", "application/json",
          Forwarder.App.preparePayload (Forwarder.NewApp client Forwarder.DefaultConfig)⟩] := by
  intro client
  cases hc : client "http://localhost:8081/api/v1/connections/send" "application/json"
      (Forwarder.App.preparePayload (Forwarder.NewApp client Forwarder.DefaultConfig)) with
  | err e =>
    rw [Forwarder.run_send_err (Forwarder.NewApp client Forwarder.DefaultConfig) e hc]
    rfl
  | resp body =>
    cases hd : Forwarder.decodeBody body with
    | error e =>
      rw [Forwarder.run_parse_err (Forwarder.NewApp client Forwarder.DefaultConfig) body e hc hd]
      rfl
    | ok kvs =>
      rw [Forwarder.run_parse_ok (Forwarder.NewApp client Forwarder.DefaultConfig) body kvs hc hd]
      rfl

/-- Claim C8, witness: the statement at a concrete client, with the payload
evaluated to the exact wire body. -/
theorem C8_witness :
    (Forwarder.App.Run (Forwarder.NewApp (Forwarder.errClient "connection refused")
        Forwarder.DefaultConfig)).calls =
      [⟨"http://localhost:8081/api/v1/connections/send", "application/json",
        "\x7b\"headers\":\x7b\"Accept\":\"application/json\",\"User-Agent\":\"Visual-Go-Test/1.0\"\x7d,\"method\":\"GET\",\"url\":\"https://httpbin.org/get\"\x7d"⟩] :=
  C8_theorem (Forwarder.errClient "connection refused")

/-- Claim C9: `parseResponse` closes the response body resource exactly once
on every exit path — the body's close count rises by one whether the decode
succeeds or fails. -/
theorem C9_theorem :
    ∀ (a : Forwarder.App) (r : Forwarder.HttpResponse),
      ((a.parseResponse r).2).closeCount = r.closeCount + 1 := by
  intro a r
  rw [Forwarder.parseResponse_eq]
  rfl

/-- Claim C9, witness: the statement at a body that fails to decode and one
that decodes, each starting from an unclosed response. -/
theorem C9_witness :
    ((Forwarder.App.parseResponse (Forwarder.NewApp (Forwarder.errClient "x")
        Forwarder.DefaultConfig) ⟨"invalid", 0⟩).2).closeCount = 1 ∧
    ((Forwarder.App.parseResponse (Forwarder.NewApp (Forwarder.errClient "x")
        Forwarder.DefaultConfig) ⟨"\x7b\x7d", 0⟩).2).closeCount = 1 :=
  ⟨C9_theorem (Forwarder.NewApp (Forwarder.errClient "x") Forwarder.DefaultConfig)
      ⟨"invalid", 0⟩,
   C9_theorem (Forwarder.NewApp (Forwarder.errClient "x") Forwarder.DefaultConfig)
      ⟨"\x7b\x7d", 0⟩⟩

/-- Claim C10: a response body that is valid JSON but not an object and not
`null` (an array, string, number or boolean) still fails the parse step —
`Run` reports `"failed to parse response: "` with the unmarshal-type
diagnostic and publishes nothing — while the valid-JSON body `null` decodes
without error and publishes all three outputs as nil. -/
theorem C10_theorem :
    (∀ (cfg : Forwarder.Config) (client : String → String → String → Forwarder.PostResult)
      (body : String) (v : Forwarder.Json),
      client cfg.ConnectionsURL "application/json"
          (Forwarder.App.preparePayload (Forwarder.NewApp client cfg)) =
        Forwarder.PostResult.resp body →
      Forwarder.Json.parse body = Except.ok v →
      Forwarder.isObjOrNull v = false →
      (Forwarder.App.Run (Forwarder.NewApp client cfg)).runError =
          some ("failed to parse response: " ++ Forwarder.notObjectMsg) ∧
        (Forwarder.App.Run (Forwarder.NewApp client cfg)).published = none) ∧
    ((Forwarder.App.Run (Forwarder.NewApp (Forwarder.respClient "null")
        Forwarder.DefaultConfig)).runError = none ∧
      (Forwarder.App.Run (Forwarder.NewApp (Forwarder.respClient "null")
        Forwarder.DefaultConfig)).published =
        some [("status_code", none), ("response_body", none), ("duration", none)]) := by
  constructor
  · intro cfg client body v hc hp ho
    have hd := Forwarder.decodeBody_of_nonObject body v hp ho
    have hr := Forwarder.run_parse_err (Forwarder.NewApp client cfg) body
      Forwarder.notObjectMsg hc hd
    exact ⟨by rw [hr], by rw [hr]⟩
  · exact ⟨rfl, rfl⟩

/-- Claim C10, witness: the non-object half at the valid JSON array body
`[1,2]`, together with the `null` half. -/
theorem C10_witness :
    ((Forwarder.App.Run (Forwarder.NewApp (Forwarder.respClient "[1,2]")
        Forwarder.DefaultConfig)).runError =
      some "failed to parse response: cannot unmarshal value into map" ∧
    (Forwarder.App.Run (Forwarder.NewApp (Forwarder.respClient "[1,2]")
        Forwarder.DefaultConfig)).published = none) :=
  C10_theorem.1 Forwarder.DefaultConfig (Forwarder.respClient "[1,2]") "[1,2]"
    (Forwarder.Json.arr [Forwarder.Json.num 1 0, Forwarder.Json.num 2 0]) rfl rfl rfl
